import Mathlib

/-!
Verification of the anytype client object model (`src/anytype/object.py`,
`src/anytype/utils.py`).

The Python code is shallowly embedded: Python values become an inductive
`PyVal`, an `Object`'s `__dict__` becomes an association list from attribute
names to stored entries, and the attribute protocol (`__getattr__`,
`__setattr__`, the `type`/`icon` properties) is translated into explicit
dispatch functions.  Collaborator classes whose files are not part of the
analysed sources (`Type`, `Icon`, `Property`, the API transport) are modelled
from the specification; every such definition is marked in its doc comment.

Mutating operations return `Option PyErr × Object`: the error raised (if any)
together with the state at the moment the operation finished or raised, so
that atomicity-on-failure claims are meaningful.
-/

set_option maxHeartbeats 1000000

/-! ## Python keywords and the property-name sanitizer (`utils.py`) -/

/-- The Python 3 reserved keywords, as character lists (`keyword.kwlist`).
Note the capitalised `False`, `None`, `True`: `keyword.iskeyword` is
case-sensitive. -/
def pythonKeywordsL : List (List Char) :=
  [['F','a','l','s','e'], ['N','o','n','e'], ['T','r','u','e'],
   ['a','n','d'], ['a','s'], ['a','s','s','e','r','t'],
   ['a','s','y','n','c'], ['a','w','a','i','t'], ['b','r','e','a','k'],
   ['c','l','a','s','s'], ['c','o','n','t','i','n','u','e'],
   ['d','e','f'], ['d','e','l'], ['e','l','i','f'], ['e','l','s','e'],
   ['e','x','c','e','p','t'], ['f','i','n','a','l','l','y'],
   ['f','o','r'], ['f','r','o','m'], ['g','l','o','b','a','l'],
   ['i','f'], ['i','m','p','o','r','t'], ['i','n'], ['i','s'],
   ['l','a','m','b','d','a'], ['n','o','n','l','o','c','a','l'],
   ['n','o','t'], ['o','r'], ['p','a','s','s'], ['r','a','i','s','e'],
   ['r','e','t','u','r','n'], ['t','r','y'], ['w','h','i','l','e'],
   ['w','i','t','h'], ['y','i','e','l','d']]

/-- Python `keyword.iskeyword` on a character list. -/
def iskeywordL (cs : List Char) : Bool :=
  decide (cs ∈ pythonKeywordsL)

/-- Python `keyword.iskeyword` on a string. -/
def iskeyword (s : String) : Bool :=
  iskeywordL s.toList

/-- A character kept verbatim by the regex substitution `[^a-z0-9_]` → `_`
in `sanitize_property_name`: `a`–`z` (97–122), `0`–`9` (48–57), or `_`
(95), stated on code points. -/
def isSanitizedChar (c : Char) : Bool :=
  (decide (97 ≤ c.toNat) && decide (c.toNat ≤ 122)) ||
  (decide (48 ≤ c.toNat) && decide (c.toNat ≤ 57)) ||
  decide (c.toNat = 95)

/-- The substitution `re.sub(r'[^a-z0-9_]', '_', ·)` on a single character. -/
def sanitizeChar (c : Char) : Char :=
  if isSanitizedChar c then c else '_'

/-- Models Python `str.lower` per character, as the list of characters the
character lowers to.  ASCII `A`–`Z` (65–90) lower in place; KELVIN SIGN
(U+212A) lowers to `k`, and LATIN CAPITAL LETTER I WITH DOT ABOVE (U+0130)
to `i` followed by COMBINING DOT ABOVE (U+0307) — the only code points
outside ASCII whose Python lowercase contains `[a-z0-9_]` characters.
Every other character is returned unchanged: its true lowercase consists
of characters outside `[a-z0-9_]`, which the subsequent substitution sends
to `_` exactly as it does the character itself, so the composed
`sub(lower(·))` below agrees with the program on every string. -/
def pyLowerChars (c : Char) : List Char :=
  if 65 ≤ c.toNat ∧ c.toNat ≤ 90 then [Char.ofNat (c.toNat + 32)]
  else if c.toNat = 0x212A then ['k']
  else if c.toNat = 0x130 then ['i', Char.ofNat 0x307]
  else [c]

/-- Python `str.lower` on a character list. -/
def pyLower (cs : List Char) : List Char :=
  cs.flatMap pyLowerChars

/-- Python `str.isdigit` on the first character of the substituted string.
That string only contains `[a-z0-9_]`, where `isdigit` coincides with the
ASCII digit test (48–57). -/
def isPyDigit (c : Char) : Bool :=
  decide (48 ≤ c.toNat) && decide (c.toNat ≤ 57)

/-- The substitution `re.sub(r'[^a-z0-9_]', '_', name.lower())`: lowercase, then replace
every character outside `[a-z0-9_]` by `_`. -/
def pySub (cs : List Char) : List Char :=
  (pyLower cs).map sanitizeChar

/-- The function `sanitize_property_name` from `utils.py`, on character lists: the
substituted lowercased string, prefixed with `_` when it starts with a
digit or is a Python keyword. -/
def sanitizeL (cs : List Char) : List Char :=
  match pySub cs with
  | [] => []
  | c :: rest =>
    if isPyDigit c || iskeywordL (c :: rest) then '_' :: c :: rest
    else c :: rest

/-- The function `sanitize_property_name` from `utils.py`. -/
def sanitize_property_name (name : String) : String :=
  String.mk (sanitizeL name.toList)

/-- The tuple `_ANYTYPE_SYSTEM_RELATIONS` from `utils.py`: property keys reserved by
the platform, excluded from the object's dynamic properties. -/
def _ANYTYPE_SYSTEM_RELATIONS : List String :=
  ["id", "name", "description", "snippet", "iconEmoji", "iconImage",
   "type", "layout", "layoutAlign", "coverId", "coverScale", "coverType",
   "coverX", "coverY", "createdDate", "creator", "lastModifiedDate",
   "lastModifiedBy", "lastOpenedDate", "featuredRelations", "isFavorite",
   "workspaceId", "spaceId", "links", "internalFlags", "restrictions",
   "addedDate", "source", "sourceObject", "setOf", "relationFormat",
   "relationKey", "relationReadonlyValue", "relationDefaultValue",
   "relationMaxCount", "relationOptionColor", "relationFormatObjectTypes",
   "isReadonly", "isDeleted", "isHidden", "spaceShareableStatus",
   "isAclShared", "isHiddenDiscovery", "done", "isArchived",
   "templateIsBundled", "smartblockTypes", "targetObjectType",
   "recommendedLayout", "fileExt", "fileMimeType", "sizeInBytes",
   "oldAnytypeID", "spaceDashboardId", "recommendedRelations",
   "iconOption", "widthInPixels", "heightInPixels", "fileExt",
   "sizeInBytes", "sourceFilePath", "fileSyncStatus", "defaultTemplateId",
   "uniqueKey", "backlinks", "profileOwnerIdentity", "fileBackupStatus",
   "fileId", "fileIndexingStatus", "origin", "revision", "imageKind",
   "importType", "spaceAccessType", "spaceInviteFileCid",
   "spaceInviteFileKey", "readersLimit", "writersLimit",
   "sharedSpacesLimit", "participantPermissions", "participantStatus",
   "latestAclHeadId", "identity", "globalName", "syncDate", "syncStatus",
   "syncError", "lastUsedDate", "mentions", "chatId", "hasChat",
   "timestamp", "iconName", "recommendedFeaturedRelations",
   "recommendedHiddenRelations", "recommendedFileRelations",
   "layoutWidth", "defaultViewType", "defaultTypeId", "resolvedLayout",
   "pluralName"]

/-! ## Association lists

Python `dict`s are modelled as association lists with insertion-order
append and in-place overwrite, which matches `d[k] = v` semantics. -/

/-- First-match lookup, `d[k]` / `d.get(k)`. -/
def alookup {α : Type} : List (String × α) → String → Option α
  | [], _ => none
  | (k, v) :: rest, key => if k == key then some v else alookup rest key

/-- Membership `k in d` on a Python dict. -/
def acontains {α : Type} (l : List (String × α)) (key : String) : Bool :=
  (alookup l key).isSome

/-- Assignment `d[k] = v` on a Python dict: overwrite in place, else append. -/
def aupdate {α : Type} : List (String × α) → String → α → List (String × α)
  | [], key, v => [(key, v)]
  | (k, w) :: rest, key, v =>
    if k == key then (key, v) :: rest else (k, w) :: aupdate rest key v

/-! ## Python values and the collaborator data model -/

/-- Plain Python data values (the shapes the analysed code inspects with
`isinstance`): `None`, booleans, integers, strings, lists and dicts. -/
inductive PyVal : Type where
  | none : PyVal
  | bool : Bool → PyVal
  | int : Int → PyVal
  | str : String → PyVal
  | list : List PyVal → PyVal
  | dict : List (String × PyVal) → PyVal

/-- Modelled from the spec: `Icon` (its file is not among the analysed
sources) is "a tagged value — either an emoji … or a structured image
reference".  `emoji` holds the emoji string, `data` the structured mapping
last applied via `_update_with_json`. -/
structure IconObj : Type where
  emoji : String
  data : List (String × PyVal)

mutual
/-- A value stored in an `Object`'s `__dict__` or assigned to one of its
attributes: a plain Python value, a collaborator instance (`Type`, `Icon`),
the `properties` list, or one of the two forwarding tables. -/
inductive Entry : Type where
  | py : PyVal → Entry
  | typeObj : TypeObj → Entry
  | iconObj : IconObj → Entry
  | props : List PropertyObj → Entry
  | setters : List String → Entry
  | getters : List (String × Nat) → Entry
  | method : String → Entry

/-- Modelled from the spec: `Property` (its file is not among the analysed
sources) is "a named, typed attribute slot on a type, instantiated per
object", carrying `name`, `key` and `format` plus a per-instance value
holder keyed by attribute name (the code stores under the property's
`format`). -/
inductive PropertyObj : Type where
  | mk : String → String → String → List (String × Entry) → PropertyObj

/-- Modelled from the spec: `Type` (its file is not among the analysed
sources) is a schema owning "a list of property declarations", with a name,
key, template id and the space identifier it is bound to. -/
inductive TypeObj : Type where
  | mk : String → String → String → String → List PropertyObj → TypeObj
end

def PropertyObj.name : PropertyObj → String
  | .mk n _ _ _ => n

def PropertyObj.key : PropertyObj → String
  | .mk _ k _ _ => k

def PropertyObj.format : PropertyObj → String
  | .mk _ _ f _ => f

def PropertyObj.values : PropertyObj → List (String × Entry)
  | .mk _ _ _ vs => vs

def TypeObj.name : TypeObj → String
  | .mk n _ _ _ _ => n

def TypeObj.key : TypeObj → String
  | .mk _ k _ _ _ => k

def TypeObj.template_id : TypeObj → String
  | .mk _ _ t _ _ => t

def TypeObj.space_id : TypeObj → String
  | .mk _ _ _ s _ => s

def TypeObj.properties : TypeObj → List PropertyObj
  | .mk _ _ _ _ ps => ps

/-- Modelled from the spec: `Property.__setattr__(format, value)` "stores
the value … in the format-specific holder". -/
def propAttrSet (p : PropertyObj) (key : String) (v : Entry) : PropertyObj :=
  .mk p.name p.key p.format (aupdate p.values key v)

/-- Modelled from the spec: the property read "returns the value stored for
that property in the format-specific holder"; an unset holder reads as
`None`. -/
def propAttrGet (p : PropertyObj) (key : String) : Entry :=
  match alookup p.values key with
  | some v => v
  | none => .py .none

/-! ## Errors -/

/-- The exceptions the analysed code can raise: `AttributeError`, plain
`Exception(msg)`, `TypeError` (string concatenation with a non-string), and
the `RecursionError` CPython produces when `__getattr__` re-enters a
failing property getter without bound. -/
inductive PyErr : Type where
  | attributeError : String → PyErr
  | exception : String → PyErr
  | typeError : PyErr
  | recursionError : PyErr

/-! ## The `Object` class -/

/-- An `Object` instance: its `__dict__`, an insertion-ordered mapping from
attribute names to stored entries. -/
structure Object : Type where
  dict : List (String × Entry)

/-- The attribute names declared on the `Object` class besides the `type`
and `icon` properties: its methods and the dunder methods it defines.
(Attributes inherited from `object` and from the out-of-scope `APIWrapper`
base are elided; no analysed code path touches them.) -/
def classMethodNames : List String :=
  ["add_type", "add_title1", "add_title2", "add_title3", "add_text",
   "add_codeblock", "add_bullet", "add_checkbox", "add_image",
   "__init__", "__setattr__", "__getattr__", "__repr__"]

/-- Every attribute name found on the class itself (`hasattr(type(self), ·)`
in the analysed dispatch code). -/
def classAttrNames : List String :=
  "type" :: "icon" :: classMethodNames

/-- The keys of `self._custom_setters` (empty when the table is absent or
malformed, states no constructed object exhibits). -/
def Object.settersKeys (o : Object) : List String :=
  match alookup o.dict "_custom_setters" with
  | some (.setters ks) => ks
  | _ => []

/-- The `self._custom_getters` table: alias name to the index (in
`self.properties`) of the property reference registered last under that
alias. -/
def Object.gettersTab (o : Object) : List (String × Nat) :=
  match alookup o.dict "_custom_getters" with
  | some (.getters gs) => gs
  | _ => []

def Object.gettersLookup (o : Object) (nm : String) : Option Nat :=
  alookup o.gettersTab nm

/-- The `self.properties` list, when present in the instance dict. -/
def Object.propsOf (o : Object) : Option (List PropertyObj) :=
  match alookup o.dict "properties" with
  | some (.props ps) => some ps
  | _ => none

/-- The guard of the forwarding branch of `__setattr__`:
`"_custom_setters" in self.__dict__ and name in self._custom_setters`. -/
def Object.fwdGuard (o : Object) (nm : String) : Bool :=
  acontains o.dict "_custom_setters" && o.settersKeys.contains nm

def Object.dictWrite (o : Object) (nm : String) (v : Entry) : Object :=
  ⟨aupdate o.dict nm v⟩

/-- The `for prop in self.properties` loop of `__setattr__`: store the value
into the first property whose sanitized name equals the attribute name
(under the property's `format` key) and stop; `none` when no property
matches. -/
def forwardScan : List PropertyObj → String → Entry → Option (List PropertyObj)
  | [], _, _ => none
  | p :: rest, nm, v =>
    if sanitize_property_name p.name == nm then
      some (propAttrSet p p.format v :: rest)
    else (forwardScan rest nm v).map (p :: ·)

/-- The body of `__setattr__` without the `type`/`icon` property dispatch: the
forwarding branch when the guard holds (raising `AttributeError` when no
property matches), otherwise a plain instance-dict write.  This is also the
path taken by the internal `self._type`/`self._icon` assignments. -/
def Object.storeAttr (o : Object) (nm : String) (v : Entry) :
    Option PyErr × Object :=
  if o.fwdGuard nm then
    match o.propsOf with
    | some ps =>
      match forwardScan ps nm v with
      | some ps2 => (none, o.dictWrite "properties" (.props ps2))
      | none => (some (.attributeError ("Attribute " ++ nm ++ " not found")), o)
    | none => (some (.attributeError ("Attribute " ++ nm ++ " not found")), o)
  else (none, o.dictWrite nm v)

/-! ## Type and icon assignment -/

/-- Read a string field of a schema mapping (missing or non-string fields
read as the empty string). -/
def pyStrField (es : List (String × PyVal)) (k : String) : String :=
  match alookup es k with
  | some (.str s) => s
  | _ => ""

/-- Python `a | b` on dicts.  The entry order of overlapping keys differs
from CPython's, but lookups agree, and nothing in the analysed code depends
on dict order. -/
def pyDictUnion (a b : List (String × PyVal)) : List (String × PyVal) :=
  a.filter (fun p => !(acontains b p.1)) ++ b

/-- Modelled from the spec: one property declaration of a schema mapping
(`name`, `key`, `format`), with an empty value holder. -/
def parsePropDecl : PyVal → Option PropertyObj
  | .dict es =>
    some (.mk (pyStrField es "name") (pyStrField es "key")
      (pyStrField es "format") [])
  | _ => none

def parsePropDecls : Option PyVal → List PropertyObj
  | some (.list xs) => xs.filterMap parsePropDecl
  | _ => []

/-- Modelled from the spec: `Type._from_api` (its file is not among the
analysed sources) is "a factory that builds a Type from a schema mapping
plus a space identifier"; the built Type is bound to the mapping's
`space_id` entry and carries the mapping's property declarations. -/
def TypeObj_from_api (es : List (String × PyVal)) : TypeObj :=
  .mk (pyStrField es "name") (pyStrField es "key")
    (pyStrField es "template_id") (pyStrField es "space_id")
    (parsePropDecls (alookup es "properties"))

/-- The field `self.space_id`, read by the `type` setter when merging the schema
mapping (always a string on constructed objects). -/
def Object.spaceIdOf (o : Object) : String :=
  match alookup o.dict "space_id" with
  | some (.py (.str s)) => s
  | _ => ""

/-- The `type` property setter: a dict is merged with
`{"space_id": self.space_id}` (the object's value overriding the mapping's)
and handed to the factory; a Type instance is stored as is; anything else
raises `Exception("Invalid type")`.  The internal `self._type = …`
assignment goes through `__setattr__` again, hence `storeAttr`. -/
def Object.typeAssign (o : Object) (v : Entry) : Option PyErr × Object :=
  match v with
  | .py (.dict es) =>
    o.storeAttr "_type"
      (.typeObj (TypeObj_from_api (pyDictUnion es [("space_id", .str o.spaceIdOf)])))
  | .typeObj t => o.storeAttr "_type" (.typeObj t)
  | _ => (some (.exception "Invalid type"), o)

/-- The Unicode ranges of the emoji regex in the `icon` setter, as
(inclusive) code-point bounds. -/
def emojiRanges : List (Nat × Nat) :=
  [(0x1F600, 0x1F64F), (0x1F300, 0x1F5FF), (0x1F680, 0x1F6FF),
   (0x1F1E0, 0x1F1FF), (0x2702, 0x27B0), (0x24C2, 0x1F251)]

def inEmojiRanges (c : Char) : Bool :=
  emojiRanges.any (fun r => r.1 ≤ c.toNat && c.toNat ≤ r.2)

/-- The test `emoji_pattern.fullmatch(value)` for the pattern `[ranges]+`: the string
is non-empty and every character lies in one of the ranges. -/
def emojiFullmatch (s : String) : Bool :=
  !s.toList.isEmpty && s.toList.all inEmojiRanges

/-- Modelled from the spec: `Icon._update_with_json` (its file is not among
the analysed sources) populates the icon from "a structured mapping". -/
def Icon_update_with_json (i : IconObj) (es : List (String × PyVal)) : IconObj :=
  ⟨match alookup es "emoji" with
    | some (.str e) => e
    | _ => i.emoji,
   es⟩

/-- The `icon` property setter: a dict builds a fresh icon via
`_update_with_json`; a string is accepted only when the emoji pattern
fullmatches, in which case `self._icon.emoji = value` mutates the stored
icon in place; an Icon instance is stored as is; anything else raises
`Exception("Invalid icon format")` before touching any state. -/
def Object.iconAssign (o : Object) (v : Entry) : Option PyErr × Object :=
  match v with
  | .py (.dict es) =>
    o.storeAttr "_icon" (.iconObj (Icon_update_with_json ⟨"", []⟩ es))
  | .py (.str s) =>
    if emojiFullmatch s then
      match alookup o.dict "_icon" with
      | some (.iconObj i) => (none, o.dictWrite "_icon" (.iconObj ⟨s, i.data⟩))
      | _ => (some (.attributeError "'Object' object has no attribute '_icon'"), o)
    else (some (.exception "Invalid icon format"), o)
  | .iconObj i => o.storeAttr "_icon" (.iconObj i)
  | _ => (some (.exception "Invalid icon format"), o)

/-- The method `Object.__setattr__`: the forwarding branch first; otherwise the
`type`/`icon` data descriptors (`object.__setattr__` invokes their
setters); every other name — plain instance fields and method shadowing
alike — lands in the instance dict. -/
def Object.setattr (o : Object) (nm : String) (v : Entry) :
    Option PyErr × Object :=
  if o.fwdGuard nm then o.storeAttr nm v
  else if nm == "type" then o.typeAssign v
  else if nm == "icon" then o.iconAssign v
  else (none, o.dictWrite nm v)

/-! ## Attribute reads -/

/-- Default attribute resolution (`object.__getattribute__`) for this
class: the `type`/`icon` data descriptors first (their getters read
`_type`/`_icon` from the instance dict and raise `AttributeError` when
absent, deferring to `__getattr__`), then the instance dict, then the
class's plain methods.  `none` exactly when `__getattr__` is invoked. -/
def Object.rawLookup (o : Object) (nm : String) : Option Entry :=
  if nm == "type" then alookup o.dict "_type"
  else if nm == "icon" then alookup o.dict "_icon"
  else
    match alookup o.dict nm with
    | some e => some e
    | none => if classMethodNames.contains nm then some (.method nm) else none

/-- The method `Object.__getattr__`: the forwarding table first (reading the value
holder of the property registered for the alias); then — when the name is
still a class attribute, which only happens because a property getter
raised — `getattr(self, name)`, which repeats the failing resolution and
recurses without bound (CPython raises `RecursionError`); finally the
instance dict with an `AttributeError` fallback. -/
def Object.dunderGetattr (o : Object) (nm : String) : Except PyErr Entry :=
  if acontains o.dict "_custom_getters" && (o.gettersLookup nm).isSome then
    match o.gettersLookup nm, o.propsOf with
    | some i, some ps =>
      match ps[i]? with
      | some p => .ok (propAttrGet p p.format)
      | none =>
        .error (.attributeError ("'Object' object has no attribute '" ++ nm ++ "'"))
    | _, _ =>
      .error (.attributeError ("'Object' object has no attribute '" ++ nm ++ "'"))
  else if classAttrNames.contains nm then
    match o.rawLookup nm with
    | some e => .ok e
    | none => .error .recursionError
  else
    match alookup o.dict nm with
    | some e => .ok e
    | none =>
      .error (.attributeError ("'Object' object has no attribute '" ++ nm ++ "'"))

/-- A full attribute read: default resolution, then `__getattr__`. -/
def Object.getattr (o : Object) (nm : String) : Except PyErr Entry :=
  match o.rawLookup nm with
  | some e => .ok e
  | none => o.dunderGetattr nm

/-! ## Construction -/

/-- The alias-registration loop at the end of `Object.__init__`: walk the
filtered property list, skip sanitized names in `("icon", "type")`, and
record each remaining alias in both forwarding tables.  Dict-key insertion
keeps the first position but overwrites the stored value, so the getter
table keeps the index of the property registered last under an alias while
the setter key set stays duplicate-free. -/
def regLoop : List PropertyObj → Nat → List String → List (String × Nat) →
    List String × List (String × Nat)
  | [], _, ss, gs => (ss, gs)
  | p :: rest, i, ss, gs =>
    let class_prop := sanitize_property_name p.name
    if class_prop == "icon" || class_prop == "type" then
      regLoop rest (i + 1) ss gs
    else
      regLoop rest (i + 1)
        (if ss.contains class_prop then ss else ss ++ [class_prop])
        (aupdate gs class_prop i)

/-- The constructor `Object.__init__`.  Every assignment in it reaches the
instance dict directly (the forwarding tables are empty while it runs),
except `self.type = type`, which goes through the `type` property setter
and stores `_type`.  Keys appear in first-insertion order; the properties
list keeps the type's declarations whose keys are not system relations. -/
def Object.init (name : String) (ty : Option TypeObj) : Object :=
  let props :=
    match ty with
    | some t =>
      t.properties.filter (fun p => !(_ANYTYPE_SYSTEM_RELATIONS.contains p.key))
    | none => []
  let tabs := regLoop props 0 [] []
  ⟨[("_apiEndpoints", .py .none),
    ("_icon", .iconObj ⟨"", []⟩),
    ("_values", .py (.dict [])),
    ("id", .py (.str "")),
    ("source", .py (.str "")),
    ("name", .py (.str name)),
    ("body", .py (.str "")),
    ("description", .py (.str "")),
    ("details", .py (.list [])),
    ("layout", .py (.str "basic")),
    ("properties", .props props),
    ("root_id", .py (.str "")),
    ("space_id", .py (.str "")),
    ("template_id", .py (.str "")),
    ("snippet", .py (.str "")),
    ("type_key", .py (.str "")),
    ("_custom_setters", .setters tabs.1),
    ("_custom_getters", .getters tabs.2)]
    ++ (match ty with
        | some t => [("_type", .typeObj t)]
        | none => [])⟩

/-! ## Body builders -/

/-- The statement `self.body += fragment`: read `self.body`, concatenate, assign through
`__setattr__`.  Concatenation with a non-string body (unreachable from the
constructor) is modelled as a `TypeError`. -/
def Object.appendBody (o : Object) (frag : String) : Option PyErr × Object :=
  match o.getattr "body" with
  | .ok (.py (.str b)) => o.setattr "body" (.py (.str (b ++ frag)))
  | .ok _ => (some .typeError, o)
  | .error e => (some e, o)

def Object.add_title1 (o : Object) (text : String) : Option PyErr × Object :=
  o.appendBody ("# " ++ text ++ "\n")

def Object.add_title2 (o : Object) (text : String) : Option PyErr × Object :=
  o.appendBody ("## " ++ text ++ "\n")

def Object.add_title3 (o : Object) (text : String) : Option PyErr × Object :=
  o.appendBody ("### " ++ text ++ "\n")

def Object.add_text (o : Object) (text : String) : Option PyErr × Object :=
  o.appendBody (text ++ "\n")

def Object.add_codeblock (o : Object) (code language : String) :
    Option PyErr × Object :=
  o.appendBody ("``` " ++ language ++ "\n" ++ code ++ "\n```\n")

def Object.add_bullet (o : Object) (text : String) : Option PyErr × Object :=
  o.appendBody ("- " ++ text ++ "\n")

def Object.add_checkbox (o : Object) (text : String) (checked : Bool) :
    Option PyErr × Object :=
  if checked then o.appendBody ("- [x] " ++ text ++ "\n")
  else o.appendBody ("- [ ] " ++ text ++ "\n")

def Object.add_image (o : Object) (image_url alt title : String) :
    Option PyErr × Object :=
  if title == "" then o.appendBody ("![" ++ alt ++ "](" ++ image_url ++ ")\n")
  else o.appendBody ("![" ++ alt ++ "](" ++ image_url ++ " \"" ++ title ++ "\")\n")

/-- The method `Object.add_type`: copies the type's template id and key. -/
def Object.add_type (o : Object) (t : TypeObj) : Option PyErr × Object :=
  match o.setattr "template_id" (.py (.str t.template_id)) with
  | (none, o1) => o1.setattr "type_key" (.py (.str t.key))
  | r => r

/-- One of the eight body-builder operations, with its arguments. -/
inductive BodyOp : Type where
  | title1 : String → BodyOp
  | title2 : String → BodyOp
  | title3 : String → BodyOp
  | text : String → BodyOp
  | codeblock : String → String → BodyOp
  | bullet : String → BodyOp
  | checkbox : String → Bool → BodyOp
  | image : String → String → String → BodyOp

def runBodyOp : BodyOp → Object → Option PyErr × Object
  | .title1 t, o => o.add_title1 t
  | .title2 t, o => o.add_title2 t
  | .title3 t, o => o.add_title3 t
  | .text t, o => o.add_text t
  | .codeblock c l, o => o.add_codeblock c l
  | .bullet t, o => o.add_bullet t
  | .checkbox t b, o => o.add_checkbox t b
  | .image u a t, o => o.add_image u a t

/-! ## Observation helpers used in theorem statements -/

/-- The object's `body` instance field, when it is a string. -/
def Object.bodyStr (o : Object) : Option String :=
  match alookup o.dict "body" with
  | some (.py (.str s)) => some s
  | _ => none

/-- The emoji of the stored `_icon`, when present. -/
def Object.iconEmoji (o : Object) : Option String :=
  match alookup o.dict "_icon" with
  | some (.iconObj i) => some i.emoji
  | _ => none

/-- The space identifier of the stored `_type`, when present. -/
def Object.typeSpace (o : Object) : Option String :=
  match alookup o.dict "_type" with
  | some (.typeObj t) => some t.space_id
  | _ => none

/-- The value stored under its own format key in the first entry of the
object's `properties` list, when it is a plain string; used to observe
property-store changes. -/
def Object.firstPropStored (o : Object) : Option String :=
  match alookup o.dict "properties" with
  | some (.props (p :: _)) =>
    match alookup p.values p.format with
    | some (.py (.str s)) => some s
    | _ => none
  | _ => none

/-- The test `isinstance(v, dict)` on an assigned value. -/
def isPyDict : Entry → Bool
  | .py (.dict _) => true
  | _ => false

/-- The test `isinstance(v, str)` on an assigned value. -/
def isPyStr : Entry → Bool
  | .py (.str _) => true
  | _ => false

/-- The test `isinstance(v, Type)` on an assigned value. -/
def isTypeVal : Entry → Bool
  | .typeObj _ => true
  | _ => false

/-- The test `isinstance(v, Icon)` on an assigned value. -/
def isIconVal : Entry → Bool
  | .iconObj _ => true
  | _ => false

/-! ## Lemmas: the sanitizer -/

theorem isSanitizedChar_sanitizeChar (c : Char) :
    isSanitizedChar (sanitizeChar c) = true := by
  by_cases h : isSanitizedChar c = true
  · rw [sanitizeChar, if_pos h]
    exact h
  · rw [sanitizeChar, if_neg h]
    decide

theorem sanitizeChar_fix (c : Char) (h : isSanitizedChar c = true) :
    sanitizeChar c = c := by
  rw [sanitizeChar, if_pos h]

theorem toNat_ofNat_of_lt {n : Nat} (h : n < 0xd800) : (Char.ofNat n).toNat = n := by
  rw [Char.ofNat, dif_pos (Or.inl h)]
  rfl

theorem map_sanitizeChar_fix (l : List Char) (h : l.all isSanitizedChar = true) :
    l.map sanitizeChar = l := by
  induction l with
  | nil => rfl
  | cons c rest ih =>
    rw [List.all_cons, Bool.and_eq_true] at h
    rw [List.map_cons, sanitizeChar_fix c h.1, ih h.2]

theorem pyLowerChars_fix (c : Char) (h : isSanitizedChar c = true) :
    pyLowerChars c = [c] := by
  simp only [isSanitizedChar, Bool.or_eq_true, Bool.and_eq_true,
    decide_eq_true_eq] at h
  rw [pyLowerChars, if_neg (by omega), if_neg (by omega), if_neg (by omega)]

theorem pyLowerChars_no_upper (c : Char) (d : Char) (hd : d ∈ pyLowerChars c) :
    ¬(65 ≤ d.toNat ∧ d.toNat ≤ 90) := by
  rw [pyLowerChars] at hd
  by_cases h1 : 65 ≤ c.toNat ∧ c.toNat ≤ 90
  · rw [if_pos h1] at hd
    rw [List.mem_singleton] at hd
    subst hd
    rw [toNat_ofNat_of_lt (by omega)]
    omega
  · rw [if_neg h1] at hd
    by_cases h2 : c.toNat = 0x212A
    · rw [if_pos h2] at hd
      rw [List.mem_singleton] at hd
      subst hd
      decide
    · rw [if_neg h2] at hd
      by_cases h3 : c.toNat = 0x130
      · rw [if_pos h3] at hd
        rcases List.mem_cons.mp hd with he | he
        · subst he
          decide
        · rw [List.mem_singleton] at he
          subst he
          rw [toNat_ofNat_of_lt (by omega)]
          omega
      · rw [if_neg h3] at hd
        rw [List.mem_singleton] at hd
        subst hd
        exact h1

theorem pyLower_fix (l : List Char) (h : l.all isSanitizedChar = true) :
    pyLower l = l := by
  induction l with
  | nil => rfl
  | cons c rest ih =>
    rw [List.all_cons, Bool.and_eq_true] at h
    rw [pyLower, List.flatMap_cons, pyLowerChars_fix c h.1]
    rw [pyLower] at ih
    rw [ih h.2, List.singleton_append]

theorem pySub_all_sanitized (cs : List Char) :
    (pySub cs).all isSanitizedChar = true := by
  rw [pySub, List.all_eq_true]
  intro d hd
  rcases List.mem_map.mp hd with ⟨c, _, rfl⟩
  exact isSanitizedChar_sanitizeChar c

theorem pySub_fix (l : List Char) (h : l.all isSanitizedChar = true) :
    pySub l = l := by
  rw [pySub, pyLower_fix l h, map_sanitizeChar_fix l h]

theorem iskeywordL_underscore (t : List Char) : iskeywordL ('_' :: t) = false := by
  simp [iskeywordL, pythonKeywordsL]

theorem sanitizeL_nil_eq : sanitizeL [] = [] := rfl

theorem sanitizeL_cons_eq (cs : List Char) (c : Char) (rest : List Char)
    (hp : pySub cs = c :: rest) :
    sanitizeL cs =
      if isPyDigit c || iskeywordL (c :: rest) then '_' :: c :: rest
      else c :: rest := by
  rw [sanitizeL, hp]

theorem sanitizeL_nil_of (cs : List Char) (hp : pySub cs = []) :
    sanitizeL cs = [] := by
  rw [sanitizeL, hp]

theorem sanitizeL_all_sanitized (cs : List Char) :
    (sanitizeL cs).all isSanitizedChar = true := by
  have h := pySub_all_sanitized cs
  cases hp : pySub cs with
  | nil => rw [sanitizeL_nil_of cs hp]; rfl
  | cons c rest =>
    rw [hp] at h
    rw [sanitizeL_cons_eq cs c rest hp]
    by_cases hc : (isPyDigit c || iskeywordL (c :: rest)) = true
    · rw [if_pos hc, List.all_cons, h]
      decide
    · rw [if_neg hc]
      exact h

theorem sanitizeL_idem (cs : List Char) : sanitizeL (sanitizeL cs) = sanitizeL cs := by
  have hall := pySub_all_sanitized cs
  cases hp : pySub cs with
  | nil => rw [sanitizeL_nil_of cs hp, sanitizeL_nil_eq]
  | cons c rest =>
    rw [hp] at hall
    by_cases hc : (isPyDigit c || iskeywordL (c :: rest)) = true
    · have h1 : sanitizeL cs = '_' :: c :: rest := by
        rw [sanitizeL_cons_eq cs c rest hp, if_pos hc]
      have hfix : pySub ('_' :: c :: rest) = '_' :: c :: rest := by
        apply pySub_fix
        rw [List.all_cons, hall]
        decide
      rw [h1, sanitizeL_cons_eq _ '_' (c :: rest) hfix, if_neg]
      rw [iskeywordL_underscore]
      decide
    · have h1 : sanitizeL cs = c :: rest := by
        rw [sanitizeL_cons_eq cs c rest hp, if_neg hc]
      rw [h1, sanitizeL_cons_eq _ c rest (pySub_fix _ hall), if_neg hc]

/-- C5: `sanitize_property_name` is idempotent: sanitizing an
already-sanitized property label returns it unchanged. -/
theorem C5_sanitize_idempotent (label : String) :
    sanitize_property_name (sanitize_property_name label) =
      sanitize_property_name label := by
  show String.mk (sanitizeL (sanitizeL label.toList)) = sanitize_property_name label
  rw [sanitizeL_idem]
  rfl

theorem spn_toList (s : String) :
    (sanitize_property_name s).toList = sanitizeL s.toList := rfl

theorem keyword_no_upper_sanitized :
    ∀ k ∈ pythonKeywordsL,
      k.all (fun c => !(decide (65 ≤ c.toNat) && decide (c.toNat ≤ 90))) = true →
      k.all isSanitizedChar = true := by decide

theorem keyword_ne_nil : ∀ k ∈ pythonKeywordsL, k ≠ [] := by decide

theorem pyLower_no_upper (cs : List Char) :
    (pyLower cs).all
      (fun c => !(decide (65 ≤ c.toNat) && decide (c.toNat ≤ 90))) = true := by
  rw [List.all_eq_true]
  intro d hd
  rw [pyLower] at hd
  rcases List.mem_flatMap.mp hd with ⟨c, _, hdc⟩
  have hnu := pyLowerChars_no_upper c d hdc
  by_cases h1 : 65 ≤ d.toNat
  · by_cases h2 : d.toNat ≤ 90
    · exact absurd ⟨h1, h2⟩ hnu
    · simp [h1, h2]
  · simp [h1]

theorem sanitized_of_digit (c : Char) (h : isPyDigit c = true) :
    isSanitizedChar c = true := by
  simp only [isPyDigit, Bool.and_eq_true, decide_eq_true_eq] at h
  simp only [isSanitizedChar, Bool.or_eq_true, Bool.and_eq_true, decide_eq_true_eq]
  omega

theorem iskeywordL_sanitizeL (cs : List Char) : iskeywordL (sanitizeL cs) = false := by
  cases hp : pySub cs with
  | nil => rw [sanitizeL_nil_of cs hp]; decide
  | cons c rest =>
    by_cases hc : (isPyDigit c || iskeywordL (c :: rest)) = true
    · rw [sanitizeL_cons_eq cs c rest hp, if_pos hc, iskeywordL_underscore]
    · rw [sanitizeL_cons_eq cs c rest hp, if_neg hc]
      simp only [Bool.or_eq_true, not_or, Bool.not_eq_true] at hc
      exact hc.2

theorem iskeyword_sanitize (s : String) :
    iskeyword (sanitize_property_name s) = false := by
  rw [iskeyword, spn_toList, iskeywordL_sanitizeL]

/-- C6 (amended): for every label that starts with an ASCII digit, and for
every label whose lowercased form is a Python keyword,
`sanitize_property_name` returns a string beginning with an underscore.
(The original claim's "equal to a reserved keyword" fails for the
capitalised keywords `False`/`None`/`True`, which lowercasing moves out of
the keyword check before it runs.) -/
theorem C6_underscore_prefixed (label : String)
    (h : (∃ c rest, label.toList = c :: rest ∧ isPyDigit c = true) ∨
         iskeywordL (pyLower label.toList) = true) :
    ∃ rest, (sanitize_property_name label).toList = '_' :: rest := by
  rcases h with ⟨c, rest, hl, hd⟩ | hk
  · have hds : isSanitizedChar c = true := sanitized_of_digit c hd
    have hp : pySub label.toList =
        c :: (rest.flatMap pyLowerChars).map sanitizeChar := by
      rw [hl, pySub, pyLower, List.flatMap_cons, pyLowerChars_fix c hds,
        List.singleton_append, List.map_cons, sanitizeChar_fix c hds]
    refine ⟨c :: (rest.flatMap pyLowerChars).map sanitizeChar, ?_⟩
    rw [spn_toList, sanitizeL_cons_eq _ _ _ hp, if_pos (by rw [hd]; rfl)]
  · have hmem : pyLower label.toList ∈ pythonKeywordsL := of_decide_eq_true hk
    have hsan : (pyLower label.toList).all isSanitizedChar = true :=
      keyword_no_upper_sanitized _ hmem (pyLower_no_upper label.toList)
    have hp : pySub label.toList = pyLower label.toList := by
      rw [pySub, map_sanitizeChar_fix _ hsan]
    cases hk2 : pyLower label.toList with
    | nil => exact absurd hk2 (keyword_ne_nil _ hmem)
    | cons c rest =>
      rw [hk2] at hp hk
      refine ⟨c :: rest, ?_⟩
      rw [spn_toList, sanitizeL_cons_eq _ _ _ hp, if_pos (by rw [hk, Bool.or_true])]

/-- C6 counterexample: `"False"` is a Python keyword, yet its sanitized
form is `"false"`, which does not begin with an underscore — the keyword
test runs on the lowercased string. -/
theorem C6_counterexample :
    iskeyword "False" = true ∧ sanitize_property_name "False" = "false" ∧
    (sanitize_property_name "False").toList.head? = some 'f' := by
  refine ⟨by decide, by decide, by decide⟩

/-- Witness for C6 at the keyword label `"class"`. -/
theorem C6_underscore_prefixed_witness :
    ∃ rest, (sanitize_property_name "class").toList = '_' :: rest :=
  C6_underscore_prefixed "class" (Or.inr (by decide))

/-! ## Lemmas: association lists -/

theorem alookup_nil {α : Type} (k : String) :
    alookup ([] : List (String × α)) k = none := rfl

theorem alookup_cons {α : Type} (k2 : String) (w : α) (rest : List (String × α))
    (k : String) :
    alookup ((k2, w) :: rest) k = if k2 == k then some w else alookup rest k := rfl

theorem aupdate_nil {α : Type} (k : String) (v : α) :
    aupdate ([] : List (String × α)) k v = [(k, v)] := rfl

theorem aupdate_cons {α : Type} (k2 : String) (w : α) (rest : List (String × α))
    (k : String) (v : α) :
    aupdate ((k2, w) :: rest) k v =
      if k2 == k then (k, v) :: rest else (k2, w) :: aupdate rest k v := rfl

theorem alookup_aupdate_self {α : Type} (l : List (String × α)) (k : String) (v : α) :
    alookup (aupdate l k v) k = some v := by
  induction l with
  | nil => simp [aupdate_nil, alookup_cons]
  | cons p rest ih =>
    obtain ⟨k2, w⟩ := p
    by_cases h : k2 = k
    · subst h
      simp [aupdate_cons, alookup_cons]
    · rw [aupdate_cons, if_neg (by simpa using h), alookup_cons,
        if_neg (by simpa using h)]
      exact ih

theorem alookup_aupdate_ne {α : Type} (l : List (String × α)) (k k2 : String) (v : α)
    (h : k2 ≠ k) : alookup (aupdate l k v) k2 = alookup l k2 := by
  induction l with
  | nil =>
    rw [aupdate_nil, alookup_cons, if_neg (by simpa using fun e => h e.symm)]
  | cons p rest ih =>
    obtain ⟨k3, w⟩ := p
    by_cases h3 : k3 = k
    · subst h3
      rw [aupdate_cons, if_pos (by simp), alookup_cons,
        if_neg (by simpa using fun e => h e.symm), alookup_cons,
        if_neg (by simpa using fun e => h e.symm)]
    · rw [aupdate_cons, if_neg (by simpa using h3), alookup_cons, alookup_cons]
      by_cases h4 : k3 = k2
      · rw [if_pos (by simpa using h4), if_pos (by simpa using h4)]
      · rw [if_neg (by simpa using h4), if_neg (by simpa using h4)]
        exact ih

theorem alookup_pyDictUnion_right (a b : List (String × PyVal)) (k : String)
    (h : acontains b k = true) : alookup (pyDictUnion a b) k = alookup b k := by
  induction a with
  | nil => rfl
  | cons p rest ih =>
    simp only [pyDictUnion, List.filter_cons]
    by_cases hp : acontains b p.1 = true
    · rw [if_neg (by simp [hp])]
      exact ih
    · rw [if_pos (by simp [Bool.not_eq_true] at hp ⊢; exact hp)]
      have hne : p.1 ≠ k := by
        intro e
        rw [e] at hp
        exact hp h
      rw [List.cons_append, alookup, if_neg (by simpa using hne)]
      exact ih

theorem getElem?_append_cons {α : Type} (pre post : List α) (x : α) :
    (pre ++ x :: post)[pre.length]? = some x := by
  induction pre with
  | nil => simp
  | cons a rest ih => simpa using ih

/-! ## Lemmas: alias registration and forwarding -/

theorem regLoop_nil (i : Nat) (ss : List String) (gs : List (String × Nat)) :
    regLoop [] i ss gs = (ss, gs) := rfl

theorem regLoop_cons (p : PropertyObj) (props : List PropertyObj) (i : Nat)
    (ss : List String) (gs : List (String × Nat)) :
    regLoop (p :: props) i ss gs =
      if sanitize_property_name p.name == "icon" ||
          sanitize_property_name p.name == "type" then
        regLoop props (i + 1) ss gs
      else
        regLoop props (i + 1)
          (if ss.contains (sanitize_property_name p.name) then ss
           else ss ++ [sanitize_property_name p.name])
          (aupdate gs (sanitize_property_name p.name) i) := rfl

theorem forwardScan_nil (nm : String) (v : Entry) :
    forwardScan [] nm v = none := rfl

theorem forwardScan_cons (p : PropertyObj) (rest : List PropertyObj)
    (nm : String) (v : Entry) :
    forwardScan (p :: rest) nm v =
      if sanitize_property_name p.name == nm then
        some (propAttrSet p p.format v :: rest)
      else (forwardScan rest nm v).map (p :: ·) := rfl

theorem regLoop_setters_sound :
    ∀ (props : List PropertyObj) (i : Nat) (ss : List String)
      (gs : List (String × Nat)) (a : String),
      a ∈ (regLoop props i ss gs).1 →
      a ∈ ss ∨ ∃ p, p ∈ props ∧ sanitize_property_name p.name = a ∧
        a ≠ "icon" ∧ a ≠ "type" := by
  intro props
  induction props with
  | nil => intro i ss gs a h; exact Or.inl h
  | cons p rest ih =>
    intro i ss gs a h
    rw [regLoop_cons] at h
    by_cases hskip : (sanitize_property_name p.name == "icon" ||
        sanitize_property_name p.name == "type") = true
    · rw [if_pos hskip] at h
      rcases ih _ _ _ _ h with h1 | ⟨q, hq, hs⟩
      · exact Or.inl h1
      · exact Or.inr ⟨q, List.mem_cons_of_mem _ hq, hs⟩
    · rw [if_neg hskip] at h
      simp only [Bool.or_eq_true, not_or, beq_iff_eq] at hskip
      rcases ih _ _ _ _ h with h1 | ⟨q, hq, hs⟩
      · by_cases hc : ss.contains (sanitize_property_name p.name) = true
        · rw [if_pos hc] at h1
          exact Or.inl h1
        · rw [if_neg hc] at h1
          rcases List.mem_append.mp h1 with h2 | h2
          · exact Or.inl h2
          · rw [List.mem_singleton] at h2
            subst h2
            exact Or.inr ⟨p, List.mem_cons_self _ _, rfl, hskip.1, hskip.2⟩
      · exact Or.inr ⟨q, List.mem_cons_of_mem _ hq, hs⟩

theorem regLoop_setters_nodup :
    ∀ (props : List PropertyObj) (i : Nat) (ss : List String)
      (gs : List (String × Nat)), ss.Nodup → (regLoop props i ss gs).1.Nodup := by
  intro props
  induction props with
  | nil => intro i ss gs h; exact h
  | cons p rest ih =>
    intro i ss gs h
    rw [regLoop_cons]
    by_cases hskip : (sanitize_property_name p.name == "icon" ||
        sanitize_property_name p.name == "type") = true
    · rw [if_pos hskip]
      exact ih _ _ _ h
    · rw [if_neg hskip]
      apply ih
      by_cases hc : ss.contains (sanitize_property_name p.name) = true
      · rw [if_pos hc]
        exact h
      · rw [if_neg hc]
        have hnm : sanitize_property_name p.name ∉ ss := by
          intro hm
          exact hc (List.elem_iff.mpr hm)
        rw [List.nodup_append]
        refine ⟨h, List.nodup_singleton _, ?_⟩
        intro a ha hmem
        rw [List.mem_singleton] at hmem
        subst hmem
        exact hnm ha

theorem regLoop_setters_mono :
    ∀ (props : List PropertyObj) (i : Nat) (ss : List String)
      (gs : List (String × Nat)) (a : String),
      a ∈ ss → a ∈ (regLoop props i ss gs).1 := by
  intro props
  induction props with
  | nil => intro i ss gs a h; exact h
  | cons p rest ih =>
    intro i ss gs a h
    rw [regLoop_cons]
    by_cases hskip : (sanitize_property_name p.name == "icon" ||
        sanitize_property_name p.name == "type") = true
    · rw [if_pos hskip]
      exact ih _ _ _ _ h
    · rw [if_neg hskip]
      apply ih
      by_cases hc : ss.contains (sanitize_property_name p.name) = true
      · rw [if_pos hc]
        exact h
      · rw [if_neg hc]
        exact List.mem_append_left _ h

theorem regLoop_setters_complete :
    ∀ (props : List PropertyObj) (i : Nat) (ss : List String)
      (gs : List (String × Nat)) (p : PropertyObj),
      p ∈ props → sanitize_property_name p.name ≠ "icon" →
      sanitize_property_name p.name ≠ "type" →
      sanitize_property_name p.name ∈ (regLoop props i ss gs).1 := by
  intro props
  induction props with
  | nil => intro i ss gs p h; exact absurd h (List.not_mem_nil p)
  | cons q rest ih =>
    intro i ss gs p hmem hni hnt
    rcases List.mem_cons.mp hmem with he | hm
    · subst he
      rw [regLoop_cons, if_neg (by simp [hni, hnt])]
      apply regLoop_setters_mono
      by_cases hc : ss.contains (sanitize_property_name p.name) = true
      · rw [if_pos hc]
        exact List.elem_iff.mp hc
      · rw [if_neg hc]
        exact List.mem_append_right _ (List.mem_singleton.mpr rfl)
    · rw [regLoop_cons]
      by_cases hskip : (sanitize_property_name q.name == "icon" ||
          sanitize_property_name q.name == "type") = true
      · rw [if_pos hskip]
        exact ih _ _ _ _ hm hni hnt
      · rw [if_neg hskip]
        exact ih _ _ _ _ hm hni hnt

theorem regLoop_getters_frame :
    ∀ (props : List PropertyObj) (i : Nat) (ss : List String)
      (gs : List (String × Nat)) (a : String),
      (∀ p ∈ props, sanitize_property_name p.name ≠ a) →
      alookup (regLoop props i ss gs).2 a = alookup gs a := by
  intro props
  induction props with
  | nil => intro i ss gs a _; rfl
  | cons p rest ih =>
    intro i ss gs a h
    rw [regLoop_cons]
    by_cases hskip : (sanitize_property_name p.name == "icon" ||
        sanitize_property_name p.name == "type") = true
    · rw [if_pos hskip]
      exact ih _ _ _ _ (fun q hq => h q (List.mem_cons_of_mem _ hq))
    · rw [if_neg hskip]
      rw [ih _ _ _ _ (fun q hq => h q (List.mem_cons_of_mem _ hq))]
      exact alookup_aupdate_ne _ _ _ _
        (fun he => h p (List.mem_cons_self _ _) he.symm)

theorem regLoop_getters_hit (post : List PropertyObj) (P : PropertyObj)
    (i : Nat) (ss : List String) (gs : List (String × Nat)) (a : String)
    (hP : sanitize_property_name P.name = a) (hni : a ≠ "icon")
    (hnt : a ≠ "type")
    (hpost : ∀ q ∈ post, sanitize_property_name q.name ≠ a) :
    alookup (regLoop (P :: post) i ss gs).2 a = some i := by
  rw [regLoop_cons, hP, if_neg (by simp [hni, hnt])]
  rw [regLoop_getters_frame post _ _ _ a hpost]
  exact alookup_aupdate_self _ _ _

theorem regLoop_append :
    ∀ (l1 l2 : List PropertyObj) (i : Nat) (ss : List String)
      (gs : List (String × Nat)),
      regLoop (l1 ++ l2) i ss gs =
        regLoop l2 (i + l1.length) (regLoop l1 i ss gs).1 (regLoop l1 i ss gs).2 := by
  intro l1
  induction l1 with
  | nil => intro l2 i ss gs; simp [regLoop_nil]
  | cons p rest ih =>
    intro l2 i ss gs
    rw [List.cons_append, regLoop_cons, regLoop_cons]
    have harith : i + 1 + rest.length = i + (p :: rest).length := by
      rw [List.length_cons]
      omega
    by_cases hskip : (sanitize_property_name p.name == "icon" ||
        sanitize_property_name p.name == "type") = true
    · rw [if_pos hskip, if_pos hskip, ih, harith]
    · rw [if_neg hskip, if_neg hskip, ih, harith]

theorem forwardScan_split (pre post : List PropertyObj) (P : PropertyObj)
    (nm : String) (v : Entry)
    (hpre : ∀ q ∈ pre, sanitize_property_name q.name ≠ nm)
    (hP : sanitize_property_name P.name = nm) :
    forwardScan (pre ++ P :: post) nm v =
      some (pre ++ propAttrSet P P.format v :: post) := by
  induction pre with
  | nil =>
    rw [List.nil_append, forwardScan_cons, if_pos (by rw [hP]; exact beq_self_eq_true _),
      List.nil_append]
  | cons q rest ih =>
    rw [List.cons_append, forwardScan_cons,
      if_neg (by simpa using hpre q (List.mem_cons_self _ _)),
      ih (fun r hr => hpre r (List.mem_cons_of_mem _ hr))]
    rfl

theorem forwardScan_none :
    ∀ (props : List PropertyObj) (nm : String) (v : Entry),
      (∀ q ∈ props, sanitize_property_name q.name ≠ nm) →
      forwardScan props nm v = none := by
  intro props
  induction props with
  | nil => intro nm v _; rfl
  | cons p rest ih =>
    intro nm v h
    rw [forwardScan_cons, if_neg (by simpa using h p (List.mem_cons_self _ _)),
      ih nm v (fun q hq => h q (List.mem_cons_of_mem _ hq))]
    rfl

/-! ## C2: alias hygiene -/

/-- C2 (amended): for every Object constructed with a Type, every alias
registered in the forwarding tables is unique among the registered aliases
and is never a Python keyword, and the protected fixed attributes are
exactly `icon` and `type`: no alias ever equals those two.  (As stated the
claim fails: the other fixed attribute names — `name`, `body`,
`description`, … — are not protected; an alias equal to them is registered
and intercepts writes, so the fixed attribute does not win.  See the
counterexample.) -/
theorem C2_alias_hygiene (t : TypeObj) (nm : String) :
    (Object.init nm (some t)).settersKeys.Nodup ∧
    ∀ a ∈ (Object.init nm (some t)).settersKeys,
      iskeyword a = false ∧ a ≠ "icon" ∧ a ≠ "type" := by
  have hkeys : (Object.init nm (some t)).settersKeys =
      (regLoop (t.properties.filter
        (fun p => !(_ANYTYPE_SYSTEM_RELATIONS.contains p.key))) 0 [] []).1 := rfl
  rw [hkeys]
  constructor
  · exact regLoop_setters_nodup _ 0 [] [] List.nodup_nil
  · intro a ha
    rcases regLoop_setters_sound _ 0 [] [] a ha with h1 | ⟨p, _, hs, hni, hnt⟩
    · exact absurd h1 (List.not_mem_nil a)
    · exact ⟨hs ▸ iskeyword_sanitize p.name, hni, hnt⟩

/-- C2 counterexample: a type with a property named `"Name"` registers the
dynamic alias `"name"`, which equals a fixed attribute name; a subsequent
write to `name` is intercepted by the forwarding table (the fixed `name`
field keeps its old value, the property store receives the write), so the
fixed attribute does not win. -/
theorem C2_counterexample :
    let o := Object.init "" (some (TypeObj.mk "" "" "" ""
      [PropertyObj.mk "Name" "kx" "text" []]))
    o.settersKeys = ["name"] ∧
    alookup o.dict "name" = some (.py (.str "")) ∧
    (o.setattr "name" (.py (.str "X"))).1 = none ∧
    alookup (o.setattr "name" (.py (.str "X"))).2.dict "name" =
      some (.py (.str "")) ∧
    (o.setattr "name" (.py (.str "X"))).2.firstPropStored = some "X" :=
  ⟨rfl, rfl, rfl, rfl, rfl⟩

/-- Witness for C2 at a type with one property `"Release Year"`. -/
theorem C2_alias_hygiene_witness :
    iskeyword "release_year" = false ∧ "release_year" ≠ "icon" ∧
    "release_year" ≠ "type" :=
  (C2_alias_hygiene
    (TypeObj.mk "" "" "" "" [PropertyObj.mk "Release Year" "kx" "text" []]) "").2
    "release_year" (by decide)

/-! ## C9: attribute-not-found -/

/-- C9: reading an attribute name that is not a registered dynamic alias,
not an attribute of the class, and not an instance field raises
`AttributeError` — resolution falls through the class descriptors, the
instance dict, the forwarding table and the instance dict once more. -/
theorem C9_attribute_not_found (o : Object) (nm : String)
    (hga : (o.gettersLookup nm).isSome = false)
    (hcls : nm ∉ classAttrNames)
    (hinst : alookup o.dict nm = none) :
    o.getattr nm =
      .error (.attributeError ("'Object' object has no attribute '" ++ nm ++ "'")) := by
  have hnt : nm ≠ "type" := by
    intro e
    subst e
    exact hcls (by decide)
  have hni : nm ≠ "icon" := by
    intro e
    subst e
    exact hcls (by decide)
  have hmeth : nm ∉ classMethodNames := fun h =>
    hcls (List.mem_cons_of_mem _ (List.mem_cons_of_mem _ h))
  have hraw : o.rawLookup nm = none := by
    simp [Object.rawLookup, hnt, hni, hinst, hmeth]
  rw [Object.getattr, hraw]
  simp [Object.dunderGetattr, hga, hcls, hinst]

/-- Witness for C9: a fresh object has no attribute `foo`. -/
theorem C9_attribute_not_found_witness :
    (Object.init "" none).getattr "foo" =
      .error (.attributeError "'Object' object has no attribute 'foo'") :=
  C9_attribute_not_found (Object.init "" none) "foo" rfl (by decide) rfl

/-! ## C7, C8: body builders -/

theorem settersKeys_eq_of_alookup (o o2 : Object)
    (h : alookup o2.dict "_custom_setters" = alookup o.dict "_custom_setters") :
    o2.settersKeys = o.settersKeys := by
  rw [Object.settersKeys, Object.settersKeys, h]

/-- The statement `self.body += frag` on a state whose `body` is the string `b` and whose
forwarding table has no `body` alias: no error, and the instance dict is
updated at `body` only. -/
theorem appendBody_spec (o : Object) (b frag : String)
    (hbody : alookup o.dict "body" = some (.py (.str b)))
    (halias : o.settersKeys.contains "body" = false) :
    o.appendBody frag =
      (none, ⟨aupdate o.dict "body" (.py (.str (b ++ frag)))⟩) := by
  have hraw : o.rawLookup "body" = some (.py (.str b)) := by
    rw [Object.rawLookup, if_neg (by decide), if_neg (by decide), hbody]
  have hget : o.getattr "body" = .ok (.py (.str b)) := by
    rw [Object.getattr, hraw]
  have hguard : o.fwdGuard "body" = false := by
    rw [Object.fwdGuard, halias, Bool.and_false]
  rw [Object.appendBody, hget]
  show o.setattr "body" (.py (.str (b ++ frag))) = _
  rw [Object.setattr, hguard]
  simp [Object.dictWrite]

/-- C8 (amended): on every object state whose `body` field is a string and
whose forwarding table does not register a `body` alias, each of the eight
body-builder operations raises nothing, extends `body` on the right (the
old body is a prefix of the new), and leaves every other instance-dict
entry unchanged; the operations return no value (they are state
transformers).  (As stated over all object states the claim fails: when a
property aliases `body`, the write is forwarded into the property store —
see the counterexample.) -/
theorem C8_body_ops_additive (op : BodyOp) (o : Object) (b : String)
    (hbody : alookup o.dict "body" = some (.py (.str b)))
    (halias : o.settersKeys.contains "body" = false) :
    (runBodyOp op o).1 = none ∧
    (∃ suffix, alookup (runBodyOp op o).2.dict "body" =
      some (.py (.str (b ++ suffix)))) ∧
    ∀ k, k ≠ "body" → alookup (runBodyOp op o).2.dict k = alookup o.dict k := by
  have post : ∀ frag : String,
      (o.appendBody frag).1 = none ∧
      (∃ suffix, alookup (o.appendBody frag).2.dict "body" =
        some (.py (.str (b ++ suffix)))) ∧
      ∀ k, k ≠ "body" → alookup (o.appendBody frag).2.dict k = alookup o.dict k := by
    intro frag
    rw [appendBody_spec o b frag hbody halias]
    refine ⟨rfl, ⟨frag, alookup_aupdate_self _ _ _⟩, ?_⟩
    intro k hk
    exact alookup_aupdate_ne _ _ _ _ hk
  cases op with
  | title1 t => exact post _
  | title2 t => exact post _
  | title3 t => exact post _
  | text t => exact post _
  | codeblock c l => exact post _
  | bullet t => exact post _
  | checkbox t c => cases c <;> exact post _
  | image u a ti =>
    rw [show runBodyOp (.image u a ti) o = o.add_image u a ti from rfl,
      Object.add_image]
    by_cases h : (ti == "") = true
    · rw [if_pos h]
      exact post _
    · rw [if_neg h]
      exact post _

/-- C8 counterexample: on an object whose type has a property named
`"Body"`, `add_title1` forwards the body write into the property's value
store: the `body` field stays `""` while the `properties` entry changes,
so a field other than `body` is mutated. -/
theorem C8_counterexample :
    let o := Object.init "" (some (TypeObj.mk "" "" "" ""
      [PropertyObj.mk "Body" "kb" "text" []]))
    (o.add_title1 "Hi").1 = none ∧
    (o.add_title1 "Hi").2.bodyStr = some "" ∧
    o.firstPropStored = none ∧
    (o.add_title1 "Hi").2.firstPropStored = some "# Hi\n" :=
  ⟨rfl, rfl, rfl, rfl⟩

/-- Witness for C8 at `add_title1 "Hi"` on a fresh object. -/
theorem C8_body_ops_additive_witness :
    (runBodyOp (.title1 "Hi") (Object.init "" none)).1 = none ∧
    (∃ suffix,
      alookup (runBodyOp (.title1 "Hi") (Object.init "" none)).2.dict "body" =
        some (.py (.str ("" ++ suffix)))) ∧
    ∀ k, k ≠ "body" →
      alookup (runBodyOp (.title1 "Hi") (Object.init "" none)).2.dict k =
        alookup (Object.init "" none).dict k :=
  C8_body_ops_additive (.title1 "Hi") (Object.init "" none) "" rfl rfl

/-- C7: on a freshly constructed object with no dynamic alias `body`,
`add_title1 "Hi"` followed by `add_bullet "x"` raises nothing and leaves
the body equal to `"# Hi\n- x\n"`. -/
theorem C7_title_bullet (nm : String) (ty : Option TypeObj)
    (h : (Object.init nm ty).settersKeys.contains "body" = false) :
    ((Object.init nm ty).add_title1 "Hi").1 = none ∧
    (((Object.init nm ty).add_title1 "Hi").2.add_bullet "x").1 = none ∧
    (((Object.init nm ty).add_title1 "Hi").2.add_bullet "x").2.bodyStr =
      some "# Hi\n- x\n" := by
  have h0 : alookup (Object.init nm ty).dict "body" = some (.py (.str "")) := rfl
  have e1 : (Object.init nm ty).add_title1 "Hi" =
      (none, ⟨aupdate (Object.init nm ty).dict "body"
        (.py (.str ("" ++ ("# " ++ "Hi" ++ "\n"))))⟩) :=
    appendBody_spec (Object.init nm ty) "" ("# " ++ "Hi" ++ "\n") h0 h
  rw [e1]
  have h1 : alookup
      (⟨aupdate (Object.init nm ty).dict "body"
        (.py (.str ("" ++ ("# " ++ "Hi" ++ "\n"))))⟩ : Object).dict "body" =
      some (.py (.str ("" ++ ("# " ++ "Hi" ++ "\n")))) :=
    alookup_aupdate_self _ _ _
  have h2 : (⟨aupdate (Object.init nm ty).dict "body"
      (.py (.str ("" ++ ("# " ++ "Hi" ++ "\n"))))⟩ : Object).settersKeys.contains
      "body" = false := by
    rw [settersKeys_eq_of_alookup (Object.init nm ty) _
      (alookup_aupdate_ne _ _ _ _ (by decide))]
    exact h
  have e2 := appendBody_spec _ _ ("- " ++ "x" ++ "\n") h1 h2
  refine ⟨rfl, ?_, ?_⟩
  · rw [show (⟨aupdate (Object.init nm ty).dict "body"
        (.py (.str ("" ++ ("# " ++ "Hi" ++ "\n"))))⟩ : Object).add_bullet "x" =
        _ from e2]
  · rw [show (⟨aupdate (Object.init nm ty).dict "body"
        (.py (.str ("" ++ ("# " ++ "Hi" ++ "\n"))))⟩ : Object).add_bullet "x" =
        _ from e2]
    rw [Object.bodyStr, alookup_aupdate_self]
    decide

/-- Witness for C7 on a fresh object without a type. -/
theorem C7_title_bullet_witness :
    ((Object.init "" none).add_title1 "Hi").1 = none ∧
    (((Object.init "" none).add_title1 "Hi").2.add_bullet "x").1 = none ∧
    (((Object.init "" none).add_title1 "Hi").2.add_bullet "x").2.bodyStr =
      some "# Hi\n- x\n" :=
  C7_title_bullet "" none rfl

/-! ## C1, C3, C10: the type and icon setters -/

theorem dictWrite_dict (o : Object) (nm : String) (v : Entry) :
    (o.dictWrite nm v).dict = aupdate o.dict nm v := rfl

theorem storeAttr_plain (o : Object) (nm : String) (v : Entry)
    (h : o.fwdGuard nm = false) :
    o.storeAttr nm v = (none, o.dictWrite nm v) := by
  rw [Object.storeAttr, h]
  simp

theorem setattr_type_eq (o : Object) (v : Entry) (h : o.fwdGuard "type" = false) :
    o.setattr "type" v = o.typeAssign v := by
  rw [Object.setattr, h]
  simp

theorem setattr_icon_eq (o : Object) (v : Entry) (h : o.fwdGuard "icon" = false) :
    o.setattr "icon" v = o.iconAssign v := by
  rw [Object.setattr, h]
  simp

theorem TypeObj_from_api_space (es : List (String × PyVal)) :
    (TypeObj_from_api es).space_id = pyStrField es "space_id" := rfl

theorem pyStrField_union_spaceid (es : List (String × PyVal)) (s : String) :
    pyStrField (pyDictUnion es [("space_id", .str s)]) "space_id" = s := by
  rw [pyStrField, alookup_pyDictUnion_right es _ _ (by rfl)]
  rfl

/-- C1 (amended): assigning a schema dict to `object.type` succeeds and
produces a Type bound to the **object's current** space identifier — the
merge `value | {"space_id": self.space_id}` overrides the mapping's own
`space_id` entry — and assigning a value that is neither a dict nor a Type
instance raises `Exception("Invalid type")`.  (As stated the claim fails:
the Type is not bound to the space identifier given in the dict; see the
counterexample.) -/
theorem C1_type_assignment (o : Object) (es : List (String × PyVal)) (v : Entry)
    (hg1 : o.fwdGuard "type" = false) (hg2 : o.fwdGuard "_type" = false)
    (hd : isPyDict v = false) (ht : isTypeVal v = false) :
    ((o.setattr "type" (.py (.dict es))).1 = none ∧
     (o.setattr "type" (.py (.dict es))).2.typeSpace = some o.spaceIdOf) ∧
    o.setattr "type" v = (some (.exception "Invalid type"), o) := by
  constructor
  · rw [setattr_type_eq o _ hg1]
    have e2 : o.typeAssign (.py (.dict es)) =
        (none, o.dictWrite "_type" (.typeObj (TypeObj_from_api
          (pyDictUnion es [("space_id", .str o.spaceIdOf)])))) := by
      show o.storeAttr "_type" _ = _
      exact storeAttr_plain o "_type" _ hg2
    rw [e2]
    refine ⟨rfl, ?_⟩
    show Object.typeSpace _ = _
    rw [Object.typeSpace, dictWrite_dict, alookup_aupdate_self]
    show some (TypeObj_from_api
      (pyDictUnion es [("space_id", PyVal.str o.spaceIdOf)])).space_id = _
    rw [TypeObj_from_api_space, pyStrField_union_spaceid]
  · rw [setattr_type_eq o v hg1]
    cases v with
    | py pv =>
      cases pv with
      | dict es2 => simp [isPyDict] at hd
      | none => rfl
      | bool b => rfl
      | int n => rfl
      | str s => rfl
      | list xs => rfl
    | typeObj t => simp [isTypeVal] at ht
    | iconObj i => rfl
    | props ps => rfl
    | setters ks => rfl
    | getters gs => rfl
    | method m => rfl

/-- C1 counterexample: on a fresh object (whose `space_id` is `""`),
assigning `{"key": "page", "space_id": "s1", "properties": []}` succeeds
but binds the Type to space `""`, not to the `"s1"` given in the dict. -/
theorem C1_counterexample :
    ((Object.init "" none).setattr "type" (.py (.dict
      [("key", .str "page"), ("space_id", .str "s1"),
       ("properties", .list [])]))).1 = none ∧
    ((Object.init "" none).setattr "type" (.py (.dict
      [("key", .str "page"), ("space_id", .str "s1"),
       ("properties", .list [])]))).2.typeSpace = some "" ∧
    (some "" : Option String) ≠ some "s1" :=
  ⟨rfl, rfl, by decide⟩

/-- Witness for C1 on a fresh object, with `42` as the invalid value. -/
theorem C1_type_assignment_witness :
    (((Object.init "" none).setattr "type"
        (.py (.dict [("key", .str "page")]))).1 = none ∧
     ((Object.init "" none).setattr "type"
        (.py (.dict [("key", .str "page")]))).2.typeSpace =
       some (Object.init "" none).spaceIdOf) ∧
    (Object.init "" none).setattr "type" (.py (.int 42)) =
      (some (.exception "Invalid type"), Object.init "" none) :=
  C1_type_assignment (Object.init "" none) [("key", .str "page")]
    (.py (.int 42)) rfl rfl rfl rfl

/-- C3 (amended): assigning a string to `object.icon` succeeds exactly when
the string is non-empty and every character lies in the emoji range table —
the regex `[ranges]+` accepts any positive number of range characters, not
only one; on success the stored icon's emoji becomes the string, otherwise
`Exception("Invalid icon format")` is raised.  (As stated the claim fails:
multi-character strings of range characters are also accepted; see the
counterexample.) -/
theorem C3_icon_string (o : Object) (s : String) (i : IconObj)
    (hg : o.fwdGuard "icon" = false)
    (hi : alookup o.dict "_icon" = some (.iconObj i)) :
    (emojiFullmatch s = true →
      o.setattr "icon" (.py (.str s)) =
        (none, o.dictWrite "_icon" (.iconObj ⟨s, i.data⟩)) ∧
      (o.setattr "icon" (.py (.str s))).2.iconEmoji = some s) ∧
    (emojiFullmatch s = false →
      o.setattr "icon" (.py (.str s)) =
        (some (.exception "Invalid icon format"), o)) := by
  have e1 : o.setattr "icon" (.py (.str s)) = o.iconAssign (.py (.str s)) :=
    setattr_icon_eq o _ hg
  constructor
  · intro hm
    have e2 : o.iconAssign (.py (.str s)) =
        (none, o.dictWrite "_icon" (.iconObj ⟨s, i.data⟩)) := by
      show (if emojiFullmatch s = true then _ else _) = _
      rw [if_pos hm, hi]
    refine ⟨e1.trans e2, ?_⟩
    rw [e1, e2]
    show Object.iconEmoji _ = _
    rw [Object.iconEmoji, dictWrite_dict, alookup_aupdate_self]
  · intro hm
    rw [e1]
    show (if emojiFullmatch s = true then _ else _) = _
    rw [if_neg (by rw [hm]; exact Bool.false_ne_true)]

/-- C3 counterexample: `"📚📚"` is two emoji characters, not a
single-emoji string, yet the assignment succeeds and stores it. -/
theorem C3_counterexample :
    ("📚📚".toList.length = 2) ∧
    ((Object.init "" none).setattr "icon" (.py (.str "📚📚"))).1 = none ∧
    ((Object.init "" none).setattr "icon" (.py (.str "📚📚"))).2.iconEmoji =
      some "📚📚" :=
  ⟨by decide, rfl, rfl⟩

/-- Witness for C3 at the single books emoji on a fresh object. -/
theorem C3_icon_string_witness :
    (emojiFullmatch "📚" = true →
      (Object.init "" none).setattr "icon" (.py (.str "📚")) =
        (none, (Object.init "" none).dictWrite "_icon"
          (.iconObj ⟨"📚", ([] : List (String × PyVal))⟩)) ∧
      ((Object.init "" none).setattr "icon" (.py (.str "📚"))).2.iconEmoji =
        some "📚") ∧
    (emojiFullmatch "📚" = false →
      (Object.init "" none).setattr "icon" (.py (.str "📚")) =
        (some (.exception "Invalid icon format"), Object.init "" none)) :=
  C3_icon_string (Object.init "" none) "📚" ⟨"", []⟩ rfl rfl

/-- C10: icon assignment is atomic on failure: for every value that is
neither a dict, an Icon instance, nor a string matching the emoji ranges,
the setter raises `Exception("Invalid icon format")` and returns the state
unchanged — the raise happens before any field write. -/
theorem C10_icon_failure_atomic (o : Object) (v : Entry)
    (hg : o.fwdGuard "icon" = false)
    (hd : isPyDict v = false) (hic : isIconVal v = false)
    (hs : ∀ s, v = .py (.str s) → emojiFullmatch s = false) :
    o.setattr "icon" v = (some (.exception "Invalid icon format"), o) := by
  rw [setattr_icon_eq o v hg]
  cases v with
  | py pv =>
    cases pv with
    | dict es => simp [isPyDict] at hd
    | str s =>
      have hm := hs s rfl
      show (if emojiFullmatch s = true then _ else _) = _
      rw [if_neg (by rw [hm]; exact Bool.false_ne_true)]
    | none => rfl
    | bool b => rfl
    | int n => rfl
    | list xs => rfl
  | iconObj i => simp [isIconVal] at hic
  | typeObj t => rfl
  | props ps => rfl
  | setters ks => rfl
  | getters gs => rfl
  | method m => rfl

/-- Witness for C10 with the invalid value `42` on a fresh object. -/
theorem C10_icon_failure_atomic_witness :
    (Object.init "" none).setattr "icon" (.py (.int 42)) =
      (some (.exception "Invalid icon format"), Object.init "" none) :=
  C10_icon_failure_atomic (Object.init "" none) (.py (.int 42)) rfl rfl rfl
    (fun s h => by simp at h)

/-! ## C4: the release_year round trip -/

theorem setattr_eq_storeAttr (o : Object) (nm : String) (v : Entry)
    (hg : o.fwdGuard nm = true) :
    o.setattr nm v = o.storeAttr nm v := by
  rw [Object.setattr, hg]
  simp

theorem storeAttr_forward (o : Object) (nm : String) (v : Entry)
    (ps ps2 : List PropertyObj)
    (hg : o.fwdGuard nm = true)
    (hprops : o.propsOf = some ps)
    (hscan : forwardScan ps nm v = some ps2) :
    o.storeAttr nm v = (none, o.dictWrite "properties" (.props ps2)) := by
  rw [Object.storeAttr, hg, if_pos rfl, hprops]
  show (match forwardScan ps nm v with
    | some ps3 => ((none : Option PyErr), o.dictWrite "properties" (.props ps3))
    | none => (some (.attributeError ("Attribute " ++ nm ++ " not found")), o)) = _
  rw [hscan]

theorem propAttrGet_propAttrSet (P : PropertyObj) (v : Entry) :
    propAttrGet (propAttrSet P P.format v) (propAttrSet P P.format v).format = v := by
  rw [propAttrGet,
    show (propAttrSet P P.format v).format = P.format from rfl,
    show (propAttrSet P P.format v).values = aupdate P.values P.format v from rfl,
    alookup_aupdate_self]

/-- C4 (amended): for every Object constructed with a Type exactly one of
whose non-system properties has the sanitized name `release_year` (such as
a unique property named "Release Year"), the object exposes the dynamic
attribute `release_year`: setting it to any value `v` and reading it back
returns `v`, write and read both forwarding to that property's value holder
keyed by its declared format.  (As stated — merely "contains" such a
property, allowing further properties with the same sanitized name — the
claim fails: the setter writes to the first matching property while the
getter reads the one registered last; see the counterexample.) -/
theorem C4_release_year_roundtrip (t : TypeObj) (nm : String) (v : Entry)
    (pre post : List PropertyObj) (P : PropertyObj)
    (hsplit : t.properties.filter
        (fun p => !(_ANYTYPE_SYSTEM_RELATIONS.contains p.key)) =
      pre ++ P :: post)
    (hP : sanitize_property_name P.name = "release_year")
    (hpre : ∀ q ∈ pre, sanitize_property_name q.name ≠ "release_year")
    (hpost : ∀ q ∈ post, sanitize_property_name q.name ≠ "release_year") :
    ∃ o2, (Object.init nm (some t)).setattr "release_year" v = (none, o2) ∧
      o2.getattr "release_year" = .ok v := by
  have hmemP : P ∈ t.properties.filter
      (fun p => !(_ANYTYPE_SYSTEM_RELATIONS.contains p.key)) := by
    rw [hsplit]
    exact List.mem_append_right _ (List.mem_cons_self _ _)
  have hmemkey : "release_year" ∈ (Object.init nm (some t)).settersKeys := by
    have h2 := regLoop_setters_complete _ 0 [] [] P hmemP
      (by rw [hP]; decide) (by rw [hP]; decide)
    rw [hP] at h2
    exact h2
  have hg : (Object.init nm (some t)).fwdGuard "release_year" = true := by
    rw [Object.fwdGuard,
      show acontains (Object.init nm (some t)).dict "_custom_setters" = true
        from rfl,
      show (Object.init nm (some t)).settersKeys.contains "release_year" = true
        from List.elem_iff.mpr hmemkey]
    rfl
  have hprops : (Object.init nm (some t)).propsOf = some (pre ++ P :: post) := by
    rw [show (Object.init nm (some t)).propsOf =
      some (t.properties.filter
        (fun p => !(_ANYTYPE_SYSTEM_RELATIONS.contains p.key))) from rfl, hsplit]
  have hscan := forwardScan_split pre post P "release_year" v hpre hP
  have hset : (Object.init nm (some t)).setattr "release_year" v =
      (none, (Object.init nm (some t)).dictWrite "properties"
        (.props (pre ++ propAttrSet P P.format v :: post))) := by
    rw [setattr_eq_storeAttr _ _ _ hg,
      storeAttr_forward _ _ _ _ _ hg hprops hscan]
  refine ⟨_, hset, ?_⟩
  set o2 := (Object.init nm (some t)).dictWrite "properties"
    (.props (pre ++ propAttrSet P P.format v :: post)) with ho2
  have hlook : alookup o2.dict "release_year" = (none : Option Entry) := by
    rw [ho2, dictWrite_dict, alookup_aupdate_ne _ _ _ _ (by decide)]
    rfl
  have hraw : o2.rawLookup "release_year" = none := by
    rw [Object.rawLookup, if_neg (by decide), if_neg (by decide), hlook]
    rfl
  have hgl : o2.gettersLookup "release_year" = some pre.length := by
    have hgt : o2.gettersTab =
        (regLoop (t.properties.filter
          (fun p => !(_ANYTYPE_SYSTEM_RELATIONS.contains p.key))) 0 [] []).2 := by
      rw [ho2, Object.gettersTab, dictWrite_dict,
        alookup_aupdate_ne _ _ _ _ (by decide)]
      rfl
    rw [Object.gettersLookup, hgt, hsplit, regLoop_append,
      regLoop_getters_hit post P _ _ _ _ hP (by decide) (by decide) hpost,
      Nat.zero_add]
  have hac : acontains o2.dict "_custom_getters" = true := by
    rw [ho2, acontains, dictWrite_dict, alookup_aupdate_ne _ _ _ _ (by decide)]
    rfl
  have hp2 : o2.propsOf = some (pre ++ propAttrSet P P.format v :: post) := by
    rw [ho2, Object.propsOf, dictWrite_dict, alookup_aupdate_self]
  rw [Object.getattr, hraw]
  show o2.dunderGetattr "release_year" = .ok v
  rw [Object.dunderGetattr, hac, hgl, hp2]
  show (match (pre ++ propAttrSet P P.format v :: post)[pre.length]? with
    | some p => Except.ok (propAttrGet p p.format)
    | none => Except.error (PyErr.attributeError
        ("'Object' object has no attribute '" ++ "release_year" ++ "'"))) =
    Except.ok v
  rw [getElem?_append_cons]
  show Except.ok (propAttrGet (propAttrSet P P.format v)
    (propAttrSet P P.format v).format) = Except.ok v
  rw [propAttrGet_propAttrSet]

/-- C4 counterexample: with two properties whose names both sanitize to
`release_year` ("Release Year", formats text and number), the setter
stores 1994 into the first property's holder while the getter reads the
property registered last, whose holder is unset: the read returns `None`,
not 1994. -/
theorem C4_counterexample :
    (((Object.init "" (some (TypeObj.mk "" "" "" ""
        [PropertyObj.mk "Release Year" "k1" "text" [],
         PropertyObj.mk "Release Year" "k2" "number" []]))).setattr
        "release_year" (.py (.int 1994))).1 = none) ∧
    (((Object.init "" (some (TypeObj.mk "" "" "" ""
        [PropertyObj.mk "Release Year" "k1" "text" [],
         PropertyObj.mk "Release Year" "k2" "number" []]))).setattr
        "release_year" (.py (.int 1994))).2.getattr "release_year" =
      .ok (.py .none)) ∧
    ((.ok (.py .none) : Except PyErr Entry) ≠ .ok (.py (.int 1994))) :=
  ⟨rfl, rfl, by intro h; simp at h⟩

/-- Witness for C4: a type with the single property "Release Year". -/
theorem C4_release_year_roundtrip_witness :
    ∃ o2, (Object.init "" (some (TypeObj.mk "" "" "" ""
        [PropertyObj.mk "Release Year" "k1" "text" []]))).setattr
        "release_year" (.py (.int 1994)) = (none, o2) ∧
      o2.getattr "release_year" = .ok (.py (.int 1994)) :=
  C4_release_year_roundtrip
    (TypeObj.mk "" "" "" "" [PropertyObj.mk "Release Year" "k1" "text" []])
    "" (.py (.int 1994)) [] []
    (PropertyObj.mk "Release Year" "k1" "text" []) rfl (by decide)
    (fun q hq => absurd hq (List.not_mem_nil q))
    (fun q hq => absurd hq (List.not_mem_nil q))
